import Mathlib

/-!
Verification of the snes_controllers_to_usb firmware core against its
natural-language specification.

The definitions below are a shallow embedding of the C++ sources:

* `controller_state` / `trigger_decode` — the per-port capture-word decode
  performed by `pio_controllers::trigger`
  (src/firmware/include/pio_controller.h).
* `update_configuration` and friends — the USB configuration-descriptor
  rebuild (src/firmware/src/usb_descriptors.cpp).
* `usb_enable_controller` / `usb_disable_controller` — the topology
  manager's enable/disable operations (src/firmware/src/usb_descriptors.cpp).
* `hid_slot` / `hid_cycle` — one polling cycle of `hid_task`
  (src/firmware/src/main.cpp).
* `wd_flags` / `wd_pet` — the watchdog aggregation protocol
  (src/firmware/src/watchdog.cpp).
* `tud_descriptor_string_cb` — the table-access behaviour of the string
  descriptor callback (src/firmware/src/usb_descriptors.cpp).

Machine integers are embedded as `Nat` (unsigned) and `Int` (signed), with
masking made explicit where the C code relies on fixed-width wraparound.
-/

/-- Mirrors `sctu::controller_state` (src/firmware/include/controller.h):
connected flag, tri-state axes stored in `int8_t`, and an 8-bit button field.
`x`/`y` are embedded as `Int` (all values produced by the decoder fit in
`int8_t` without wraparound) and `buttons` as `Nat`. -/
structure controller_state where
  connected : Bool
  x : Int
  y : Int
  buttons : Nat
  deriving DecidableEq, Repr

/-- The per-port decode performed in `pio_controllers::trigger`
(src/firmware/include/pio_controller.h, lines 46-71), as a pure function of
the 32-bit capture word `data`.  Each field is written with the same
shift/mask arithmetic as the C++ source; the C truth test of `(e & 1)` is
`!= 0`, and the `int8_t`/`uint8_t` casts are identities because every value
produced already fits (x, y ∈ {-127, 0, 127}; buttons < 256). -/
def trigger_decode (data : Nat) : controller_state :=
  { connected :=
      (((data >>> 24) &&& 1) != 0) &&
      (((data >>> 26) &&& 1) != 0) &&
      (((data >>> 28) &&& 1) != 0) &&
      (((data >>> 30) &&& 1) != 0)
  , x :=
      if (data &&& (1 <<< 12)) != 0 then (-127 : Int)
      else if (data &&& (1 <<< 14)) != 0 then 127
      else 0
  , y :=
      if (data &&& (1 <<< 8)) != 0 then (127 : Int)
      else if (data &&& (1 <<< 10)) != 0 then -127
      else 0
  , buttons :=
      ((data >>> 0) &&& 1) |||
      (((data >>> 2) &&& 1) <<< 1) |||
      (((data >>> 3) &&& 1) <<< 2) |||
      (((data >>> 4) &&& 1) <<< 3) |||
      (((data >>> 16) &&& 1) <<< 4) |||
      (((data >>> 18) &&& 1) <<< 5) |||
      (((data >>> 20) &&& 1) <<< 6) |||
      (((data >>> 22) &&& 1) <<< 7)
  }

/-- Source capture bit feeding each `buttons` bit 0..7
(B Y SELECT START UP DOWN LEFT RIGHT on capture bits 0,2,3,4,16,18,20,22). -/
def button_source_bit : Nat → Nat
  | 0 => 0
  | 1 => 2
  | 2 => 3
  | 3 => 4
  | 4 => 16
  | 5 => 18
  | 6 => 20
  | _ => 22

lemma shift_and_one (data k : Nat) :
    (data >>> k) &&& 1 = (data.testBit k).toNat := by
  rw [Nat.and_one_is_mod, Nat.shiftRight_eq_div_pow, Nat.testBit_to_div_mod]
  rcases Nat.mod_two_eq_zero_or_one (data / 2 ^ k) with h | h <;> simp [h]

lemma shift_and_one_ne (data k : Nat) :
    (((data >>> k) &&& 1) != 0) = data.testBit k := by
  rw [shift_and_one]
  cases data.testBit k <;> simp

lemma and_shift_ne (data k : Nat) :
    ((data &&& (1 <<< k)) != 0) = data.testBit k := by
  rw [Nat.one_shiftLeft, Nat.and_two_pow]
  have hpos : 2 ^ k ≠ 0 := Nat.pos_iff_ne_zero.mp (Nat.two_pow_pos k)
  cases h : data.testBit k <;> simp [h, hpos]

/-- The button-field arithmetic of the decoder, abstracted over the eight
sampled bits.  `btns b0 .. b7` is literally the `|`/`<<` expression from the
source with `(data >> k) & 1` replaced by the corresponding bit. -/
def btns (b0 b1 b2 b3 b4 b5 b6 b7 : Bool) : Nat :=
  b0.toNat |||
  (b1.toNat <<< 1) |||
  (b2.toNat <<< 2) |||
  (b3.toNat <<< 3) |||
  (b4.toNat <<< 4) |||
  (b5.toNat <<< 5) |||
  (b6.toNat <<< 6) |||
  (b7.toNat <<< 7)

lemma btns_testBit :
    ∀ b0 b1 b2 b3 b4 b5 b6 b7 : Bool,
      (btns b0 b1 b2 b3 b4 b5 b6 b7).testBit 0 = b0 ∧
      (btns b0 b1 b2 b3 b4 b5 b6 b7).testBit 1 = b1 ∧
      (btns b0 b1 b2 b3 b4 b5 b6 b7).testBit 2 = b2 ∧
      (btns b0 b1 b2 b3 b4 b5 b6 b7).testBit 3 = b3 ∧
      (btns b0 b1 b2 b3 b4 b5 b6 b7).testBit 4 = b4 ∧
      (btns b0 b1 b2 b3 b4 b5 b6 b7).testBit 5 = b5 ∧
      (btns b0 b1 b2 b3 b4 b5 b6 b7).testBit 6 = b6 ∧
      (btns b0 b1 b2 b3 b4 b5 b6 b7).testBit 7 = b7 := by
  decide

lemma trigger_decode_buttons_eq (data : Nat) :
    (trigger_decode data).buttons =
      btns (data.testBit 0) (data.testBit 2) (data.testBit 3) (data.testBit 4)
        (data.testBit 16) (data.testBit 18) (data.testBit 20) (data.testBit 22) := by
  simp only [trigger_decode, btns, shift_and_one]

/-- C1: For every 32-bit capture word, the decoder is a pure total function
producing a valid `controller_state`: `connected` is the AND of the four
wire-present strobe bits at positions 24, 26, 28 and 30; `x` is -127 if bit
12 is set, +127 if bit 14 is set, else 0; `y` is +127 if bit 8 is set, -127
if bit 10 is set, else 0; `buttons` bits 0..7 come from capture bits
0, 2, 3, 4, 16, 18, 20, 22 respectively; and the decoded `x` and `y` are
always exactly in {-127, 0, 127}. -/
theorem trigger_decode_spec (data : Nat) (_hdata : data < 2 ^ 32) :
    (trigger_decode data).connected =
      (data.testBit 24 && data.testBit 26 && data.testBit 28 && data.testBit 30) ∧
    (trigger_decode data).x =
      (if data.testBit 12 then -127 else if data.testBit 14 then 127 else 0) ∧
    (trigger_decode data).y =
      (if data.testBit 8 then 127 else if data.testBit 10 then -127 else 0) ∧
    (∀ j, j < 8 →
      ((trigger_decode data).buttons).testBit j = data.testBit (button_source_bit j)) ∧
    ((trigger_decode data).x = -127 ∨ (trigger_decode data).x = 0 ∨
      (trigger_decode data).x = 127) ∧
    ((trigger_decode data).y = -127 ∨ (trigger_decode data).y = 0 ∨
      (trigger_decode data).y = 127) := by
  refine ⟨?_, ?_, ?_, ?_, ?_, ?_⟩
  · simp only [trigger_decode, shift_and_one_ne]
  · simp only [trigger_decode, and_shift_ne]
  · simp only [trigger_decode, and_shift_ne]
  · intro j hj
    rw [trigger_decode_buttons_eq]
    have h := btns_testBit (data.testBit 0) (data.testBit 2) (data.testBit 3)
      (data.testBit 4) (data.testBit 16) (data.testBit 18) (data.testBit 20)
      (data.testBit 22)
    interval_cases j <;>
      simp only [button_source_bit] <;>
      tauto
  · simp only [trigger_decode]
    split
    · left; rfl
    · split
      · right; right; rfl
      · right; left; rfl
  · simp only [trigger_decode]
    split
    · right; right; rfl
    · split
      · left; rfl
      · right; left; rfl

/-- Witness for C1: the hypothesis `data < 2^32` discharged at the concrete
capture word 0x55000005, whose decode is evaluated concretely. -/
theorem trigger_decode_spec_witness :
    (0x55000005 : Nat) < 2 ^ 32 ∧
    ((trigger_decode 0x55000005).connected = true ∧
      (trigger_decode 0x55000005).buttons.testBit 0 = true) :=
  ⟨by decide,
    ((trigger_decode_spec 0x55000005 (by decide)).1.symm ▸ (by decide)),
    ((trigger_decode_spec 0x55000005 (by decide)).2.2.2.1 0 (by decide)).symm ▸ (by decide)⟩

/-- C7 counterexample: decoding the capture word 0x5000_0000 does NOT yield
`connected = true`: the word has only bits 28 and 30 set, so the strobe bits
at 24 and 26 are clear and the decoder reports the controller disconnected.
The full decode of 0x5000_0000 is {connected: false, x: 0, y: 0, buttons: 0}. -/
theorem trigger_decode_0x50000000 :
    trigger_decode 0x50000000 =
      { connected := false, x := 0, y := 0, buttons := 0 } ∧
    (trigger_decode 0x50000000).connected ≠ true := by
  decide

/-- C7 amended: the capture word with the four wire-present strobe bits
24/26/28/30 all set and no other bit set is 0x5500_0000, and decoding it
yields {connected: true, x: 0, y: 0, buttons: 0}. -/
theorem trigger_decode_0x55000000 :
    trigger_decode 0x55000000 =
      { connected := true, x := 0, y := 0, buttons := 0 } := by
  decide

/-- Length of the USB configuration header emitted by `TUD_CONFIG_DESCRIPTOR`
(external TinyUSB constant `TUD_CONFIG_DESC_LEN`). -/
def TUD_CONFIG_DESC_LEN : Nat := 9

/-- Length of one HID interface block emitted by `TUD_HID_DESCRIPTOR`
(external TinyUSB constant `TUD_HID_DESC_LEN` = 9 + 9 + 7). -/
def TUD_HID_DESC_LEN : Nat := 25

/-- Length of the fixed two-interface CDC console block emitted by
`TUD_CDC_DESCRIPTOR` (external TinyUSB constant `TUD_CDC_DESC_LEN`
= 8 + 9 + 5 + 5 + 4 + 5 + 7 + 9 + 7 + 7). -/
def TUD_CDC_DESC_LEN : Nat := 66

/-- `config_total_length` from src/firmware/src/usb_descriptors.cpp:
total configuration-descriptor length for `hid` HID interface blocks. -/
def config_total_length (hid : Nat) : Nat :=
  TUD_CONFIG_DESC_LEN + hid * TUD_HID_DESC_LEN + TUD_CDC_DESC_LEN

/-- `std::popcount` restricted to the 8-bit values that reach it in
`update_configuration` (the argument is a `uint8_t`), written as the sum of
the eight bit extractions. -/
def popcount8 (n : Nat) : Nat :=
  ((n >>> 0) &&& 1) + ((n >>> 1) &&& 1) + ((n >>> 2) &&& 1) +
  ((n >>> 3) &&& 1) + ((n >>> 4) &&& 1) + ((n >>> 5) &&& 1) +
  ((n >>> 6) &&& 1) + ((n >>> 7) &&& 1)

/-- The per-port HID block appended by the loop in `update_configuration`:
the arguments the source passes to the external `TUD_HID_DESCRIPTOR`
serializer for one enabled port (interface number, string descriptor index,
IN endpoint address). -/
structure hid_block where
  itf : Nat
  strIdx : Nat
  epAddr : Nat
  deriving DecidableEq, Repr

/-- The loop of `update_configuration` (src/firmware/src/usb_descriptors.cpp,
lines 197-219): scan ports in ascending order, skip disabled ones, and for
each enabled port emit a HID block numbered by the running dense count
(`ITF_NUM_HID_BASE` = 2 and `EPNUM_HID_BASE` = 3 are the source constants). -/
def hid_blocks_loop (mask : Nat) : List Nat → Nat → List hid_block
  | [], _ => []
  | i :: rest, count =>
    if ((mask >>> i) &&& 1) != 0 then
      { itf := 2 + count, strIdx := 5 + i, epAddr := 0x80 ||| (3 + count) } ::
        hid_blocks_loop mask rest (count + 1)
    else
      hid_blocks_loop mask rest count

/-- The configuration descriptor produced by `update_configuration`, recording
the header fields that vary with the mask (interface count and declared total
length) and the ordered list of HID blocks appended after the fixed
CDC console block. -/
structure config_desc where
  itfCount : Nat
  totalLen : Nat
  hidBlocks : List hid_block
  deriving DecidableEq, Repr

/-- `update_configuration` (src/firmware/src/usb_descriptors.cpp, lines
160-220) as a pure function of the compiled HID interface limit
`CFG_TUD_HID` and the active-controller mask.  The `&&& 0xFF` reflects the
`uint8_t` parameter type; the clamp `&&& ((1 << CFG_TUD_HID) - 1)` is the
first statement of the function. -/
def update_configuration (cfgTudHid mask : Nat) : config_desc :=
  let m := (mask &&& 0xFF) &&& ((1 <<< cfgTudHid) - 1)
  let n := popcount8 m
  { itfCount := 2 + n
  , totalLen := config_total_length n
  , hidBlocks := hid_blocks_loop m [0, 1, 2, 3] 0 }

/-- Modelled from the spec: the compiled HID interface limit `CFG_TUD_HID`
comes from the firmware's TinyUSB configuration header (tusb_config.h), which
is not among the provided sources.  The spec fixes four controller ports and
states that the mask 0b1111 (all four ports) is accepted unclamped, so the
limit is 4. -/
def CFG_TUD_HID : Nat := 4

/-- C2: For every 4-bit mask, the configuration descriptor built from that
mask declares interface count = 2 + popcount(mask) and the corresponding
total length (header + CDC console block + one HID block length per enabled
port), and contains exactly one HID block per enabled port in ascending port
order (string indices 5 + port follow the mask's set bits in ascending
order), with interface numbers 2, 3, ... starting after the two fixed
interfaces and endpoint addresses 0x83 + slot strictly increasing; in
particular mask 0b0001 yields 3 interfaces with exactly one HID block and
mask 0b1111 yields 6 interfaces with four HID blocks. -/
theorem update_configuration_spec (mask : Nat) (hmask : mask < 16) :
    (update_configuration CFG_TUD_HID mask).itfCount = 2 + popcount8 mask ∧
    (update_configuration CFG_TUD_HID mask).hidBlocks.length = popcount8 mask ∧
    (update_configuration CFG_TUD_HID mask).totalLen =
      TUD_CONFIG_DESC_LEN + TUD_CDC_DESC_LEN +
        (update_configuration CFG_TUD_HID mask).hidBlocks.length * TUD_HID_DESC_LEN ∧
    (update_configuration CFG_TUD_HID mask).hidBlocks.map (fun b => b.strIdx) =
      ((List.range 4).filter (fun i => mask.testBit i)).map (fun i => 5 + i) ∧
    (update_configuration CFG_TUD_HID mask).hidBlocks.map (fun b => b.itf) =
      List.range' 2 (update_configuration CFG_TUD_HID mask).hidBlocks.length ∧
    (update_configuration CFG_TUD_HID mask).hidBlocks.map (fun b => b.epAddr) =
      List.range' 0x83 (update_configuration CFG_TUD_HID mask).hidBlocks.length ∧
    List.Pairwise (· < ·)
      ((update_configuration CFG_TUD_HID mask).hidBlocks.map (fun b => b.epAddr)) ∧
    (update_configuration CFG_TUD_HID 1).itfCount = 3 ∧
    (update_configuration CFG_TUD_HID 1).hidBlocks.length = 1 ∧
    (update_configuration CFG_TUD_HID 15).itfCount = 6 ∧
    (update_configuration CFG_TUD_HID 15).hidBlocks.length = 4 := by
  interval_cases mask <;> decide

/-- Witness for C2: the hypothesis `mask < 16` discharged at mask = 0b1111. -/
theorem update_configuration_spec_witness :
    (update_configuration CFG_TUD_HID 15).itfCount = 2 + popcount8 15 :=
  (update_configuration_spec 15 (by decide)).1

lemma popcount8_le (x c : Nat) (hhi : ∀ i, c ≤ i → (x >>> i) &&& 1 = 0) :
    popcount8 x ≤ c := by
  have hb : ∀ i, (x >>> i) &&& 1 ≤ 1 := fun i => Nat.and_le_right
  have key : ∀ i, (x >>> i) &&& 1 ≤ if i < c then 1 else 0 := by
    intro i
    by_cases h : i < c
    · simpa [h] using hb i
    · simp only [h, if_false]
      exact Nat.le_of_eq (hhi i (Nat.le_of_not_lt h))
  have hsum :
      ((if 0 < c then 1 else 0) + (if 1 < c then 1 else 0) +
        (if 2 < c then 1 else 0) + (if 3 < c then 1 else 0) +
        (if 4 < c then 1 else 0) + (if 5 < c then 1 else 0) +
        (if 6 < c then 1 else 0) + (if 7 < c then 1 else 0) : Nat) ≤ c := by
    rcases le_or_lt 8 c with h | h
    · have h0 : (if (0:Nat) < c then (1:Nat) else 0) ≤ 1 := by split <;> omega
      have h1 : (if (1:Nat) < c then (1:Nat) else 0) ≤ 1 := by split <;> omega
      have h2 : (if (2:Nat) < c then (1:Nat) else 0) ≤ 1 := by split <;> omega
      have h3 : (if (3:Nat) < c then (1:Nat) else 0) ≤ 1 := by split <;> omega
      have h4 : (if (4:Nat) < c then (1:Nat) else 0) ≤ 1 := by split <;> omega
      have h5 : (if (5:Nat) < c then (1:Nat) else 0) ≤ 1 := by split <;> omega
      have h6 : (if (6:Nat) < c then (1:Nat) else 0) ≤ 1 := by split <;> omega
      have h7 : (if (7:Nat) < c then (1:Nat) else 0) ≤ 1 := by split <;> omega
      omega
    · interval_cases c <;> decide
  have := key 0
  have := key 1
  have := key 2
  have := key 3
  have := key 4
  have := key 5
  have := key 6
  have := key 7
  unfold popcount8
  omega

lemma clamp_hi_bits (mask c i : Nat) (hi : c ≤ i) :
    (((mask &&& 0xFF) &&& ((1 <<< c) - 1)) >>> i) &&& 1 = 0 := by
  rw [shift_and_one]
  have : ((mask &&& 0xFF) &&& ((1 <<< c) - 1)).testBit i = false := by
    rw [Nat.one_shiftLeft, Nat.testBit_and, Nat.testBit_two_pow_sub_one]
    simp [Nat.not_lt.mpr hi]
  simp [this]

lemma hid_blocks_loop_length (m k : Nat) :
    (hid_blocks_loop m [0, 1, 2, 3] k).length =
      ((m >>> 0) &&& 1) + ((m >>> 1) &&& 1) + ((m >>> 2) &&& 1) +
        ((m >>> 3) &&& 1) := by
  have hcase : ∀ i : Nat, (m >>> i) &&& 1 = 0 ∨ (m >>> i) &&& 1 = 1 := by
    intro i
    have : (m >>> i) &&& 1 ≤ 1 := Nat.and_le_right
    omega
  rcases hcase 0 with h0 | h0 <;> rcases hcase 1 with h1 | h1 <;>
    rcases hcase 2 with h2 | h2 <;> rcases hcase 3 with h3 | h3 <;>
    simp only [hid_blocks_loop, h0, h1, h2, h3] <;>
    simp

/-- C8: For every compiled HID interface limit and every requested mask,
descriptor building silently clamps: the built descriptor never contains
more HID blocks than the limit and never declares more than 2 + limit
interfaces; `update_configuration` is total, so no error is surfaced to the
caller. -/
theorem update_configuration_clamps (cfgTudHid mask : Nat) :
    (update_configuration cfgTudHid mask).hidBlocks.length ≤ cfgTudHid ∧
    (update_configuration cfgTudHid mask).itfCount ≤ 2 + cfgTudHid := by
  have hpop :
      popcount8 ((mask &&& 0xFF) &&& ((1 <<< cfgTudHid) - 1)) ≤ cfgTudHid :=
    popcount8_le _ _ (fun i hi => clamp_hi_bits mask cfgTudHid i hi)
  constructor
  · have hlen := hid_blocks_loop_length
      ((mask &&& 0xFF) &&& ((1 <<< cfgTudHid) - 1)) 0
    have hle : (hid_blocks_loop ((mask &&& 0xFF) &&& ((1 <<< cfgTudHid) - 1))
        [0, 1, 2, 3] 0).length ≤
        popcount8 ((mask &&& 0xFF) &&& ((1 <<< cfgTudHid) - 1)) := by
      rw [hlen]
      unfold popcount8
      omega
    exact le_trans hle hpop
  · show 2 + popcount8 _ ≤ 2 + cfgTudHid
    omega

/-- The topology manager's shared state: the `active_controllers` atomic
bitmask together with a counter of disconnect/reconnect sequences performed
(each `tud_disconnect(); vTaskDelay(100); tud_connect();` run adds one). -/
structure usb_state where
  active : Nat
  seqs : Nat
  deriving DecidableEq, Repr

/-- `usb_enable_controller` (src/firmware/src/usb_descriptors.cpp, lines
230-243): mask the argument to the low 4 bits, return immediately if any of
those bits is already active, otherwise OR it into the mask and run one
disconnect/reconnect sequence.  The argument is the bitmask the source ANDs
and ORs with the active mask. -/
def usb_enable_controller (controller : Nat) (s : usb_state) : usb_state :=
  if ((controller &&& 0xF) &&& s.active) != 0 then s
  else { active := s.active ||| (controller &&& 0xF), seqs := s.seqs + 1 }

/-- `usb_disable_controller` (src/firmware/src/usb_descriptors.cpp, lines
245-258): mask the argument to the low 4 bits, return immediately if none of
those bits is active, otherwise clear them (`active &= ~controller`, which on
the `uint8_t` mask equals `&&& (0xFF ^^^ controller)`) and run one
disconnect/reconnect sequence. -/
def usb_disable_controller (controller : Nat) (s : usb_state) : usb_state :=
  if ((controller &&& 0xF) &&& s.active) == 0 then s
  else { active := s.active &&& (0xFF ^^^ (controller &&& 0xF)), seqs := s.seqs + 1 }

lemma shl_and_15 (p : Nat) (hp : p < 4) : (1 <<< p) &&& 0xF = 1 <<< p := by
  interval_cases p <;> decide

lemma shl_and_active (p a : Nat) :
    (1 <<< p) &&& a = (a.testBit p).toNat * 2 ^ p := by
  rw [Nat.one_shiftLeft, Nat.and_comm]
  exact Nat.and_two_pow a p

/-- C3: For every port, calling enable(port) twice in a row (with the port's
single-bit mask, the port's bit initially clear and no intervening disable)
triggers exactly one disconnect/reconnect sequence and the second call is a
no-op because the port's bit is already set; symmetrically, calling
disable(port) twice in a row from a state where the bit is set triggers
exactly one sequence; reconfiguration is debounced on the bit value, not on
the call. -/
theorem usb_enable_disable_debounce (p : Nat) (s : usb_state) (hp : p < 4) :
    (s.active.testBit p = false →
      (usb_enable_controller (1 <<< p) s).seqs = s.seqs + 1 ∧
      usb_enable_controller (1 <<< p) (usb_enable_controller (1 <<< p) s) =
        usb_enable_controller (1 <<< p) s) ∧
    (s.active.testBit p = true →
      (usb_disable_controller (1 <<< p) s).seqs = s.seqs + 1 ∧
      usb_disable_controller (1 <<< p) (usb_disable_controller (1 <<< p) s) =
        usb_disable_controller (1 <<< p) s) := by
  constructor
  · intro hbit
    have h1 : (1 <<< p) &&& s.active = 0 := by
      rw [shl_and_active, hbit]
      simp
    have hfirst : usb_enable_controller (1 <<< p) s =
        { active := s.active ||| (1 <<< p), seqs := s.seqs + 1 } := by
      simp [usb_enable_controller, shl_and_15 p hp, h1]
    have h2 : ((1 <<< p) &&& (s.active ||| (1 <<< p))) ≠ 0 := by
      rw [shl_and_active]
      have : (s.active ||| (1 <<< p)).testBit p = true := by
        rw [Nat.testBit_or, Nat.one_shiftLeft, Nat.testBit_two_pow_self]
        simp
      rw [this]
      simp
    refine ⟨by rw [hfirst], ?_⟩
    rw [hfirst]
    simp [usb_enable_controller, shl_and_15 p hp, h2]
  · intro hbit
    have h1 : ((1 <<< p) &&& s.active) ≠ 0 := by
      rw [shl_and_active, hbit]
      simp
    have hfirst : usb_disable_controller (1 <<< p) s =
        { active := s.active &&& (0xFF ^^^ (1 <<< p)), seqs := s.seqs + 1 } := by
      simp [usb_disable_controller, shl_and_15 p hp, h1]
    have h2 : (1 <<< p) &&& (s.active &&& (0xFF ^^^ (1 <<< p))) = 0 := by
      rw [shl_and_active]
      have hx : (0xFF ^^^ (1 <<< p)).testBit p = false := by
        rw [Nat.one_shiftLeft, Nat.testBit_xor]
        have h255 : (0xFF : Nat).testBit p = true := by
          interval_cases p <;> decide
        rw [h255, Nat.testBit_two_pow_self]
        rfl
      have : (s.active &&& (0xFF ^^^ (1 <<< p))).testBit p = false := by
        rw [Nat.testBit_and, hx]
        simp
      rw [this]
      simp
    refine ⟨by rw [hfirst], ?_⟩
    rw [hfirst]
    simp [usb_disable_controller, shl_and_15 p hp, h2]

/-- Witness for C3: the hypothesis `p < 4` discharged at port 0, with both
the enable part (from the empty mask) and the disable part (from the mask
with bit 0 set) instantiated concretely. -/
theorem usb_enable_disable_debounce_witness :
    ((usb_enable_controller (1 <<< 0) { active := 0, seqs := 0 }).seqs = 0 + 1 ∧
      usb_enable_controller (1 <<< 0)
          (usb_enable_controller (1 <<< 0) { active := 0, seqs := 0 }) =
        usb_enable_controller (1 <<< 0) { active := 0, seqs := 0 }) ∧
    ((usb_disable_controller (1 <<< 0) { active := 1, seqs := 0 }).seqs = 0 + 1 ∧
      usb_disable_controller (1 <<< 0)
          (usb_disable_controller (1 <<< 0) { active := 1, seqs := 0 }) =
        usb_disable_controller (1 <<< 0) { active := 1, seqs := 0 }) :=
  ⟨(usb_enable_disable_debounce 0 { active := 0, seqs := 0 } (by decide)).1 (by decide),
    (usb_enable_disable_debounce 0 { active := 1, seqs := 0 } (by decide)).2 (by decide)⟩

/-- The local `controller_state` struct of src/firmware/src/main.cpp
(x/y `int8_t`, buttons `uint8_t`, structural equality). -/
structure pad_state where
  x : Int
  y : Int
  buttons : Nat
  deriving DecidableEq, Repr

/-- Zero initialization `controller_state last_data{}` in `hid_task`. -/
def pad_neutral : pad_state := { x := 0, y := 0, buttons := 0 }

/-- One per-slot block of the `hid_task` loop body
(src/firmware/src/main.cpp, lines 97-121 for slot 0 and 123-147 for slot 1):
given the slot's readiness, the device's suspend flag, the freshly decoded
state and the task's stored `last_data`, it produces the HID reports sent,
the remote-wakeup requests issued (as the list of slots that issued one) and
the updated `last_data`.  Report bytes mirror `buffer[0..2] = x, y, buttons`
with the implicit `int8_t` → `uint8_t` conversion made explicit. -/
def hid_slot (slot : Nat) (ready suspended : Bool) (data last : pad_state) :
    List (Nat × List Nat) × List Nat × pad_state :=
  if ready then
    if suspended && (data.x != 0 || data.y != 0 || data.buttons != 0) then
      ([], [slot], last)
    else if last ≠ data then
      ([(slot, [((data.x % 256).toNat), ((data.y % 256).toNat), data.buttons % 256])],
        [], data)
    else ([], [], last)
  else ([], [], last)

/-- One full iteration of the `hid_task` polling loop: the slot-0 block runs
first, then the slot-1 block, and both share the single `last_data` variable
(the slot-1 block sees the value the slot-0 block left behind).  Result:
(reports sent, wakeup requests, final `last_data`). -/
def hid_cycle (r0 r1 susp : Bool) (d0 d1 last : pad_state) :
    List (Nat × List Nat) × List Nat × pad_state :=
  let s0 := hid_slot 0 r0 susp d0 last
  let s1 := hid_slot 1 r1 susp d1 s0.2.2
  (s0.1 ++ s1.1, s0.2.1 ++ s1.2.1, s1.2.2)

/-- C4 failing input: one cycle with both slots ready, not suspended, both
slots decoding the same non-neutral state S = {x: 127, y: 0, buttons: 0},
starting from the initial `last_data` = {0, 0, 0}.  Slot 0 sends S and
overwrites the shared `last_data`; slot 1 is then suppressed even though S
differs from everything ever sent on slot 1 (nothing was).  The suppression
is therefore judged against the single shared `last_data`, not against a
per-slot "last sent" state as the claim requires. -/
theorem hid_task_shared_last_data_bug :
    hid_cycle true true false
        { x := 127, y := 0, buttons := 0 }
        { x := 127, y := 0, buttons := 0 } pad_neutral =
      ([(0, [127, 0, 0])], [], { x := 127, y := 0, buttons := 0 }) ∧
    ({ x := 127, y := 0, buttons := 0 } : pad_state) ≠ pad_neutral := by
  constructor
  · rfl
  · decide

lemma hid_slot_report_slot (slot : Nat) (ready suspended : Bool)
    (data last : pad_state) :
    ∀ rep ∈ (hid_slot slot ready suspended data last).1, rep.1 = slot := by
  intro rep hrep
  unfold hid_slot at hrep
  split at hrep
  · split at hrep
    · simp at hrep
    · split at hrep
      · simp at hrep
        rw [hrep]
      · simp at hrep
  · simp at hrep

lemma hid_slot_wake (slot : Nat) (suspended : Bool) (data last : pad_state)
    (hsusp : suspended = true)
    (hnn : (data.x != 0 || data.y != 0 || data.buttons != 0) = true) :
    hid_slot slot true suspended data last = ([], [slot], last) := by
  unfold hid_slot
  rw [hsusp, hnn]
  simp

/-- C5: On any cycle where the device reports itself USB-suspended and the
decoded state for a ready slot has any non-neutral axis or button, a
remote-wakeup request is issued for that slot and no ordinary HID report is
sent for that slot that cycle, even if the state changed since the last sent
state. -/
theorem hid_task_wake_priority (r0 r1 susp : Bool) (d0 d1 last : pad_state)
    (s : Nat) (hs : s < 2)
    (hready : (if s = 0 then r0 else r1) = true)
    (hsusp : susp = true)
    (hnn : ((if s = 0 then d0 else d1).x != 0 ||
        (if s = 0 then d0 else d1).y != 0 ||
        (if s = 0 then d0 else d1).buttons != 0) = true) :
    s ∈ (hid_cycle r0 r1 susp d0 d1 last).2.1 ∧
    ∀ rep ∈ (hid_cycle r0 r1 susp d0 d1 last).1, rep.1 ≠ s := by
  interval_cases s
  · simp only [if_pos rfl, reduceIte] at hready hnn
    subst hready hsusp
    have h0 := hid_slot_wake 0 true d0 last rfl hnn
    constructor
    · simp [hid_cycle, h0]
    · intro rep hrep
      simp only [hid_cycle, h0] at hrep
      simp at hrep
      have := hid_slot_report_slot 1 r1 true d1 last rep hrep
      omega
  · simp only [if_neg (by decide : ¬(1 : Nat) = 0)] at hready hnn
    subst hready hsusp
    constructor
    · have h1 := hid_slot_wake 1 true d1
        (hid_slot 0 r0 true d0 last).2.2 rfl hnn
      simp [hid_cycle, h1]
    · intro rep hrep
      simp only [hid_cycle] at hrep
      rw [List.mem_append] at hrep
      rcases hrep with h | h
      · have := hid_slot_report_slot 0 r0 true d0 last rep h
        omega
      · have h1 := hid_slot_wake 1 true d1
          (hid_slot 0 r0 true d0 last).2.2 rfl hnn
        rw [h1] at h
        simp at h

/-- Witness for C5: hypotheses discharged at slot 0, both slots ready,
suspended, with a non-neutral decoded state. -/
theorem hid_task_wake_priority_witness :
    0 ∈ (hid_cycle true true true
        { x := 0, y := 0, buttons := 1 }
        { x := 0, y := 0, buttons := 1 } pad_neutral).2.1 ∧
    ∀ rep ∈ (hid_cycle true true true
        { x := 0, y := 0, buttons := 1 }
        { x := 0, y := 0, buttons := 1 } pad_neutral).1, rep.1 ≠ 0 :=
  hid_task_wake_priority true true true
    { x := 0, y := 0, buttons := 1 }
    { x := 0, y := 0, buttons := 1 } pad_neutral 0
    (by decide) (by decide) (by decide) (by decide)

/-- One aggregator check of `watchdog_task` (src/firmware/src/watchdog.cpp,
lines 44-55) on the two-core flag array: if all per-core flags are set, pet
the hardware watchdog (`watchdog_update()`) and reset every flag to false;
otherwise do nothing.  Returns (flags after the check, whether it petted). -/
def watchdog_step (f : Bool × Bool) : (Bool × Bool) × Bool :=
  if f.1 && f.2 then ((false, false), true) else (f, false)

/-- Heartbeats delivered during aggregation cycle `i`: each per-core
`watchdog_cpu_task` (src/firmware/src/watchdog.cpp, lines 27-36) may set its
own flag (`status_ = true`) between two aggregator checks; `hb i` records
which cores did so during cycle `i`.  Setting is an OR onto the flag. -/
def wd_deliver (f : Bool × Bool) (h : Bool × Bool) : Bool × Bool :=
  (f.1 || h.1, f.2 || h.2)

/-- The flag array at the start of aggregation cycle `i`, for heartbeat
trace `hb` and initial flags `init`. -/
def wd_flags (hb : Nat → Bool × Bool) (init : Bool × Bool) : Nat → Bool × Bool
  | 0 => init
  | i + 1 => (watchdog_step (wd_deliver (wd_flags hb init i) (hb i))).1

/-- The flag array as the aggregator reads it at cycle `i`, after that
cycle's heartbeats have been delivered. -/
def wd_check (hb : Nat → Bool × Bool) (init : Bool × Bool) (i : Nat) :
    Bool × Bool :=
  wd_deliver (wd_flags hb init i) (hb i)

/-- Whether the aggregator pets the hardware watchdog at cycle `i`. -/
def wd_pet (hb : Nat → Bool × Bool) (init : Bool × Bool) (i : Nat) : Bool :=
  (watchdog_step (wd_check hb init i)).2

/-- C6: In every aggregation cycle the aggregator pets the hardware watchdog
if and only if all per-core liveness flags are set at that cycle's check, and
when it pets it resets every flag to false; consequently, if one core's
heartbeat flag is never set again from cycle `k` on (it is clear at `k` and
that core delivers no heartbeat at any later cycle), the aggregator never
pets the hardware watchdog again from `k` on.  Both cores' versions of the
starvation property are stated. -/
theorem watchdog_aggregator (hb : Nat → Bool × Bool) (init : Bool × Bool)
    (k : Nat) :
    (∀ i, wd_pet hb init i =
      ((wd_check hb init i).1 && (wd_check hb init i).2)) ∧
    (∀ i, wd_pet hb init i = true → wd_flags hb init (i + 1) = (false, false)) ∧
    ((wd_flags hb init k).1 = false → (∀ j, k ≤ j → (hb j).1 = false) →
      ∀ j, k ≤ j → wd_pet hb init j = false) ∧
    ((wd_flags hb init k).2 = false → (∀ j, k ≤ j → (hb j).2 = false) →
      ∀ j, k ≤ j → wd_pet hb init j = false) := by
  refine ⟨?_, ?_, ?_, ?_⟩
  · intro i
    unfold wd_pet watchdog_step
    split
    · simp_all
    · simp_all
  · intro i hpet
    unfold wd_pet watchdog_step at hpet
    unfold wd_flags watchdog_step
    rw [show wd_deliver (wd_flags hb init i) (hb i) = wd_check hb init i from rfl]
    split at hpet
    · simp_all
    · simp at hpet
  · intro hflag hhb
    have hstays : ∀ j, k ≤ j → (wd_flags hb init j).1 = false := by
      intro j hj
      induction j with
      | zero =>
        have : k = 0 := Nat.le_zero.mp hj
        rw [← this]
        exact hflag
      | succ n ih =>
        rcases Nat.lt_or_ge k (n + 1) with h | h
        · have hn : k ≤ n := Nat.lt_succ_iff.mp h
          have hfn := ih hn
          unfold wd_flags watchdog_step
          split
          · rfl
          · simp [wd_deliver, hfn, hhb n hn]
        · have : k = n + 1 := Nat.le_antisymm hj h
          rw [← this]
          exact hflag
    intro j hj
    unfold wd_pet watchdog_step
    have : (wd_check hb init j).1 = false := by
      unfold wd_check wd_deliver
      simp [hstays j hj, hhb j hj]
    simp [this]
  · intro hflag hhb
    have hstays : ∀ j, k ≤ j → (wd_flags hb init j).2 = false := by
      intro j hj
      induction j with
      | zero =>
        have : k = 0 := Nat.le_zero.mp hj
        rw [← this]
        exact hflag
      | succ n ih =>
        rcases Nat.lt_or_ge k (n + 1) with h | h
        · have hn : k ≤ n := Nat.lt_succ_iff.mp h
          have hfn := ih hn
          unfold wd_flags watchdog_step
          split
          · rfl
          · simp [wd_deliver, hfn, hhb n hn]
        · have : k = n + 1 := Nat.le_antisymm hj h
          rw [← this]
          exact hflag
    intro j hj
    unfold wd_pet watchdog_step
    have : (wd_check hb init j).2 = false := by
      unfold wd_check wd_deliver
      simp [hstays j hj, hhb j hj]
    simp [this]

/-- Witness for C6: with core 0 silent from cycle 0 (flag initially clear,
no heartbeat ever) and core 1 heartbeating every cycle, the aggregator does
not pet at cycle 5. -/
theorem watchdog_aggregator_witness :
    wd_pet (fun _ => (false, true)) (false, false) 5 = false :=
  (watchdog_aggregator (fun _ => (false, true)) (false, false) 0).2.2.1
    rfl (fun _ _ => rfl) 5 (Nat.zero_le 5)

/-- Observable effect of one invocation of `tud_descriptor_string_cb`
(src/firmware/src/usb_descriptors.cpp, lines 381-416) on the string table:
it either takes the dynamically generated serial path (index 3), returns
nullptr, or reads `string_desc_arr[index]`. -/
inductive string_cb_access where
  | serial
  | nullRet
  | tableRead (i : Nat)
  deriving DecidableEq, Repr

/-- Number of entries of `string_desc_arr`
(src/firmware/src/usb_descriptors.cpp, lines 276-287): indices 0..8 are
valid, so the size is 9. -/
def string_desc_arr_size : Nat := 9

/-- The branch structure of `tud_descriptor_string_cb`: index 3 is the
serial path; otherwise the guard `if (index > string_desc_arr.size())
return nullptr;` is tested, and when it does not fire the callback reads
`string_desc_arr[index]` (an unchecked `std::array` access). -/
def tud_descriptor_string_cb (index : Nat) : string_cb_access :=
  if index = 3 then .serial
  else if index > string_desc_arr_size then .nullRet
  else .tableRead index

/-- C10 failing input, index = 9: the guard `index > string_desc_arr.size()`
does not fire (9 > 9 is false), so the callback reads `string_desc_arr[9]` —
one entry past the end of the 9-entry table (valid indices are 0..8) —
instead of returning nullptr as every index strictly greater than 8 should.
Indices 10 and above do return nullptr, showing the guard is off by one. -/
theorem tud_descriptor_string_cb_out_of_bounds :
    tud_descriptor_string_cb 9 = .tableRead 9 ∧
    ¬(9 < string_desc_arr_size) ∧
    tud_descriptor_string_cb 10 = .nullRet := by
  decide
